import Mathlib

/-!
Shallow embedding of the medical-cabinet services
(`src/services/patient_service.py`, `src/services/consultation_service.py`,
`src/models/patient.py`, `src/models/consultation.py`, `src/models/prescription.py`).

Modelling conventions:

* Python exceptions are modelled with `Except ServiceError`.  Every service
  method of the source raises before it mutates any collection, so a raised
  exception leaves the in-memory stores unchanged; accordingly a
  `.error` result carries no state and the caller keeps the old store.
* The Python `dict` keyed by security number is an association list with
  insertion order preserved and in-place replacement on an existing key
  (`dictUpsert`), matching CPython dict assignment semantics.
* A serialized consultation is a record mirroring the dict built by
  `planifier_consultation`.  Its `date_heure` field holds an abstract time
  point as a `Nat`: the source stores `datetime.isoformat()` strings, and on
  the canonical fixed-width ISO format the lexicographic string order used by
  `sorted(..., key=lambda x: x["date_heure"])` coincides with the
  chronological order used by `datetime.fromisoformat(...) >= now`, so a
  single totally ordered time domain is faithful.
* `uuid.uuid4()` is modelled by passing the generated id as an explicit
  argument; its freshness (no collision with an existing id) is an explicit
  hypothesis where a theorem needs it.
* In the source the consultation dict appended to `self.consultations` is the
  same object as the one appended to the patient back-reference list
  (`patient.ajouter_consultation(c)`).  The embedding copies the record at
  scheduling time; no modelled operation reads the back-reference list after
  a later mutation, so the aliasing is unobservable here.
* Status literals are kept verbatim: "planifiée", "réalisée", "annulée"
  (the `Consultation.STATUS_*` constants of `src/models/consultation.py`).
  `Consultation` does define `STATUS_ANNULEE`, so the conditional expression
  in `marquer_realisee` evaluates to the comparison
  `c.get("statut") == "annulée"`.
-/

/-- Error kinds raised by the two services
(`PatientNotFoundError`, `InvalidSecurityNumberError` of
`patient_service.py`; `ConsultationNotFoundError`,
`InvalidConsultationStatusError` of `consultation_service.py`). -/
inductive ServiceError where
  | patientNotFound
  | invalidSecurityNumber
  | consultationNotFound
  | invalidConsultationStatus
deriving DecidableEq, Repr

/-- The dict produced by `ConsultationService._serialize_prescription`:
keys `_type` (here `tag`), `description`, `posologie`, `duree`.
It has no key for a variant-specific attribute. -/
structure PrescriptionRecord where
  tag : String
  description : String
  posologie : String
  duree : String
deriving DecidableEq, Repr

/-- The serialized consultation dict built by
`ConsultationService.planifier_consultation` (keys `id`, `patient_num`,
`date_heure`, `medecin`, `motif`, `diagnostic`, `prescriptions`, `statut`). -/
structure Consult where
  id : String
  patient_num : String
  date_heure : Nat
  medecin : String
  motif : String
  diagnostic : Option String
  prescriptions : List PrescriptionRecord
  statut : String
deriving DecidableEq, Repr

/-- The `Patient` entity of `src/models/patient.py`: security number, surname,
given name, birth date (kept abstract as its ISO string), address, phone, and
the back-reference list `_consultations`. -/
structure Patient where
  numero_secu : String
  nom : String
  prenom : String
  date_naissance : String
  adresse : String
  telephone : String
  consultations : List Consult
deriving DecidableEq, Repr

/-- The `Prescription` class hierarchy of `src/models/prescription.py`
as a sum type: `PrescriptionMedicamenteuse(medicament, dosage, frequence,
duree)`, `PrescriptionExamen(type_examen, laboratoire)`,
`PrescriptionKinesitherapie(nb_seances, zone)`. -/
inductive Prescription where
  | medicamenteuse (medicament dosage frequence duree : String)
  | examen (type_examen : String) (laboratoire : Option String)
  | kinesitherapie (nb_seances : Nat) (zone : String)
deriving DecidableEq, Repr

/-- `presc.__class__.__name__`, read by `_serialize_prescription`. -/
def Prescription.className : Prescription → String
  | .medicamenteuse _ _ _ _ => "PrescriptionMedicamenteuse"
  | .examen _ _ => "PrescriptionExamen"
  | .kinesitherapie _ _ => "PrescriptionKinesitherapie"

/-- The `description` attribute assigned by each subclass constructor via
`super().__init__`: the medicament, the exam type, or the literal
"kinésithérapie". -/
def Prescription.description : Prescription → String
  | .medicamenteuse medicament _ _ _ => medicament
  | .examen type_examen _ => type_examen
  | .kinesitherapie _ _ => "kinésithérapie"

/-- The `posologie` attribute assigned by each subclass constructor:
the dosage, "n/a", or the f-string built from `nb_seances`. -/
def Prescription.posologie : Prescription → String
  | .medicamenteuse _ dosage _ _ => dosage
  | .examen _ _ => "n/a"
  | .kinesitherapie nb_seances _ => toString nb_seances ++ " séances"

/-- The `duree` attribute assigned by each subclass constructor. -/
def Prescription.duree : Prescription → String
  | .medicamenteuse _ _ _ duree => duree
  | .examen _ _ => "n/a"
  | .kinesitherapie _ _ => "par séances"

/-- `ConsultationService._serialize_prescription`: records the class name and
the three shared public attributes, nothing else. -/
def serialize_prescription (presc : Prescription) : PrescriptionRecord :=
  { tag := presc.className
    description := presc.description
    posologie := presc.posologie
    duree := presc.duree }

/-- Fragment of the character predicate behind Python `str.isdigit()`.
CPython accepts every character whose Unicode `Numeric_Type` is `Digit` or
`Decimal`; this under-approximation lists the ASCII digits together with the
non-ASCII digit ranges this development touches (each listed code point does
satisfy `str.isdigit()` in CPython 3): Arabic-Indic U+0660..U+0669, extended
Arabic-Indic U+06F0..U+06F9, fullwidth U+FF10..U+FF19, and the superscript
digits U+00B9, U+00B2, U+00B3. -/
def pyIsDigit (c : Char) : Bool :=
  (('0' ≤ c) && (c ≤ '9'))
  || (0x660 ≤ c.toNat && c.toNat ≤ 0x669)
  || (0x6F0 ≤ c.toNat && c.toNat ≤ 0x6F9)
  || (0xFF10 ≤ c.toNat && c.toNat ≤ 0xFF19)
  || c.toNat == 0xB9 || c.toNat == 0xB2 || c.toNat == 0xB3

/-- Python `s.isdigit()`: at least one character and every character a digit. -/
def pyIsDigitStr (s : String) : Bool :=
  !s.data.isEmpty && s.data.all pyIsDigit

/-- The in-memory patient dict of `PatientService` (`self.patients`),
keyed by `numero_secu`, insertion-ordered. -/
abbrev PatientsMap := List (String × Patient)

/-- Python `dict.get`: the value at the key, if present. -/
def dictGet (m : PatientsMap) (k : String) : Option Patient :=
  match m with
  | [] => none
  | (k₁, v) :: rest => if k₁ = k then some v else dictGet rest k

/-- Python `dict[k] = v`: replace in place when the key exists (keeping its
position), append otherwise. -/
def dictUpsert (m : PatientsMap) (k : String) (v : Patient) : PatientsMap :=
  match m with
  | [] => [(k, v)]
  | (k₁, v₁) :: rest =>
      if k₁ = k then (k, v) :: rest else (k₁, v₁) :: dictUpsert rest k v

/-- `PatientService.ajouter_patient`: raises `InvalidSecurityNumberError`
unless `isinstance(num, str) and num.isdigit() and len(num) == 15`; both
branches of the duplicate test assign `self.patients[num] = patient`
(deliberate upsert). The file save is outside the modelled state. -/
def ajouter_patient (patients : PatientsMap) (patient : Patient) :
    Except ServiceError PatientsMap :=
  if pyIsDigitStr patient.numero_secu && patient.numero_secu.length == 15 then
    .ok (dictUpsert patients patient.numero_secu patient)
  else
    .error .invalidSecurityNumber

/-- `PatientService.rechercher_patient`: `self.patients.get(numero_secu)`,
raising `PatientNotFoundError` when the lookup misses (a `Patient` instance
is always truthy, so `if not patient` fires exactly on `None`). -/
def rechercher_patient (patients : PatientsMap) (numero_secu : String) :
    Except ServiceError Patient :=
  match dictGet patients numero_secu with
  | some patient => .ok patient
  | none => .error .patientNotFound

/-- The in-memory state touched by `ConsultationService`: the patient dict of
its `patient_service` and its own list `self.consultations` of serialized
consultation dicts. -/
structure ConsultationState where
  patients : PatientsMap
  consultations : List Consult
deriving DecidableEq, Repr

/-- `ConsultationService._find_by_id`: the first consultation dict whose
`id` equals the argument, if any. -/
def find_by_id (consultations : List Consult) (consultation_id : String) :
    Option Consult :=
  match consultations with
  | [] => none
  | c :: rest =>
      if c.id = consultation_id then some c else find_by_id rest consultation_id

/-- In-place mutation of the dict returned by `_find_by_id`: apply `f` to the
first consultation whose `id` matches, leave the rest untouched. -/
def updateFirstById (consultations : List Consult) (consultation_id : String)
    (f : Consult → Consult) : List Consult :=
  match consultations with
  | [] => []
  | c :: rest =>
      if c.id = consultation_id then f c :: rest
      else c :: updateFirstById rest consultation_id f

/-- `ConsultationService.planifier_consultation`: look the patient up
(propagating `PatientNotFoundError`), build the consultation dict with status
`Consultation.STATUS_PLANIFIEE` = "planifiée", `diagnostic = None`, empty
prescriptions, append it to `self.consultations` and to the patient
back-reference list, and return it.  The id drawn by `str(uuid.uuid4())` is
the explicit argument `cid`.  The consultation dict literal built inside it
is split out as `nouvelle_consultation`. -/
def nouvelle_consultation (cid patient_num : String) (date_heure : Nat)
    (medecin motif : String) : Consult :=
  { id := cid
    patient_num := patient_num
    date_heure := date_heure
    medecin := medecin
    motif := motif
    diagnostic := none
    prescriptions := []
    statut := "planifiée" }

def planifier_consultation (st : ConsultationState) (cid : String)
    (patient_num : String) (date_heure : Nat) (medecin motif : String) :
    Except ServiceError (ConsultationState × Consult) :=
  match dictGet st.patients patient_num with
  | none => .error .patientNotFound
  | some patient =>
      let c := nouvelle_consultation cid patient_num date_heure medecin motif
      let patient₁ := { patient with consultations := patient.consultations ++ [c] }
      .ok ({ patients := dictUpsert st.patients patient_num patient₁
             consultations := st.consultations ++ [c] }, c)

/-- Comparator of `sorted(upcoming, key=lambda x: x["date_heure"])` on the
abstract time domain. -/
def dateLe (a b : Consult) : Bool :=
  a.date_heure ≤ b.date_heure

/-- `ConsultationService.lister_consultations_a_venir`: keep the
consultations with `statut in ("planifiée", "planifiee")` and
`date_heure >= now`, sorted ascending by `date_heure` (Python `sorted` is a
stable ascending sort; `List.mergeSort` is too). -/
def lister_consultations_a_venir (now : Nat) (consultations : List Consult) :
    List Consult :=
  (consultations.filter
      (fun c => (c.statut == "planifiée" || c.statut == "planifiee")
        && now ≤ c.date_heure)).mergeSort dateLe

/-- `ConsultationService.marquer_realisee`: `ConsultationNotFoundError` when
`_find_by_id` misses; `InvalidConsultationStatusError` when the status equals
"annulée" (since `Consultation.STATUS_ANNULEE` exists, the conditional
expression reduces to that comparison); otherwise set the status to
"réalisée". -/
def marquer_realisee (consultations : List Consult) (consultation_id : String) :
    Except ServiceError (List Consult) :=
  match find_by_id consultations consultation_id with
  | none => .error .consultationNotFound
  | some c =>
      if c.statut = "annulée" then .error .invalidConsultationStatus
      else .ok (updateFirstById consultations consultation_id
        (fun x => { x with statut := "réalisée" }))

/-- `ConsultationService.annuler_consultation`: `ConsultationNotFoundError`
when absent; `InvalidConsultationStatusError` when the status equals
"réalisée"; otherwise set the status to "annulée". -/
def annuler_consultation (consultations : List Consult) (consultation_id : String) :
    Except ServiceError (List Consult) :=
  match find_by_id consultations consultation_id with
  | none => .error .consultationNotFound
  | some c =>
      if c.statut = "réalisée" then .error .invalidConsultationStatus
      else .ok (updateFirstById consultations consultation_id
        (fun x => { x with statut := "annulée" }))

/-- `ConsultationService.ajouter_diagnostic`: `ConsultationNotFoundError`
when absent; `InvalidConsultationStatusError` unless the status equals
"réalisée"; otherwise store the diagnosis text. -/
def ajouter_diagnostic (consultations : List Consult) (consultation_id : String)
    (diagnostic : String) : Except ServiceError (List Consult) :=
  match find_by_id consultations consultation_id with
  | none => .error .consultationNotFound
  | some c =>
      if c.statut ≠ "réalisée" then .error .invalidConsultationStatus
      else .ok (updateFirstById consultations consultation_id
        (fun x => { x with diagnostic := some diagnostic }))

/-- `ConsultationService.ajouter_prescription`: `ConsultationNotFoundError`
when absent; otherwise append the serialized prescription to the
consultation prescription list — no status check of any kind. -/
def ajouter_prescription (consultations : List Consult) (consultation_id : String)
    (presc : Prescription) : Except ServiceError (List Consult) :=
  match find_by_id consultations consultation_id with
  | none => .error .consultationNotFound
  | some _ =>
      .ok (updateFirstById consultations consultation_id
        (fun x => { x with
          prescriptions := x.prescriptions ++ [serialize_prescription presc] }))

/-! ### Helper lemmas -/

/-- A dict lookup right after an upsert at the same key yields the new value. -/
theorem dictGet_dictUpsert_self (m : PatientsMap) (k : String) (v : Patient) :
    dictGet (dictUpsert m k v) k = some v := by
  induction m with
  | nil => simp [dictUpsert, dictGet]
  | cons hd tl ih =>
      obtain ⟨k₁, v₁⟩ := hd
      by_cases hk : k₁ = k
      · simp [dictUpsert, dictGet, hk]
      · simp [dictUpsert, dictGet, hk, ih]

/-- Looking up the id just mutated finds the mutated record, provided the
mutation preserves the id. -/
theorem find_by_id_updateFirstById (cs : List Consult) (cid : String)
    (f : Consult → Consult) (c : Consult) (h : find_by_id cs cid = some c)
    (hid : (f c).id = c.id) :
    find_by_id (updateFirstById cs cid f) cid = some (f c) := by
  induction cs with
  | nil => simp [find_by_id] at h
  | cons hd tl ih =>
      by_cases hhd : hd.id = cid
      · rw [find_by_id, if_pos hhd] at h
        injection h with h
        subst h
        rw [updateFirstById, if_pos hhd, find_by_id, if_pos (by rw [hid, hhd])]
      · rw [find_by_id, if_neg hhd] at h
        rw [updateFirstById, if_neg hhd, find_by_id, if_neg hhd]
        exact ih h

/-- A mutation that fixes the record it finds leaves the list unchanged. -/
theorem updateFirstById_eq_self (cs : List Consult) (cid : String)
    (f : Consult → Consult) (c : Consult) (h : find_by_id cs cid = some c)
    (hfix : f c = c) :
    updateFirstById cs cid f = cs := by
  induction cs with
  | nil => rfl
  | cons hd tl ih =>
      by_cases hhd : hd.id = cid
      · rw [find_by_id, if_pos hhd] at h
        injection h with h
        subst h
        rw [updateFirstById, if_pos hhd, hfix]
      · rw [find_by_id, if_neg hhd] at h
        rw [updateFirstById, if_neg hhd, ih h]

/-! ### Claim theorems -/

/-- C2: `marquer_realisee` (markCompleted) fails with
`ConsultationNotFoundError` when no consultation has the id; fails with
`InvalidConsultationStatusError` when the current status is "annulée"
(cancelled), leaving every consultation unchanged (the exception is raised
before any mutation); otherwise it sets the status to "réalisée"
(completed). -/
theorem C2_markCompleted (cs : List Consult) (cid : String) :
    (find_by_id cs cid = none →
      marquer_realisee cs cid = .error .consultationNotFound)
    ∧ (∀ c, find_by_id cs cid = some c → c.statut = "annulée" →
        marquer_realisee cs cid = .error .invalidConsultationStatus)
    ∧ (∀ c, find_by_id cs cid = some c → c.statut ≠ "annulée" →
        marquer_realisee cs cid
          = .ok (updateFirstById cs cid (fun x => { x with statut := "réalisée" }))
        ∧ find_by_id
            (updateFirstById cs cid (fun x => { x with statut := "réalisée" })) cid
            = some { c with statut := "réalisée" }) := by
  refine ⟨fun hnone => ?_, fun c hc hst => ?_, fun c hc hst => ⟨?_, ?_⟩⟩
  · rw [marquer_realisee, hnone]
  · rw [marquer_realisee, hc]
    simp [hst]
  · rw [marquer_realisee, hc]
    simp [hst]
  · exact find_by_id_updateFirstById cs cid _ c hc rfl

/-- C2 witness: on a one-element store holding a cancelled consultation,
markCompleted fails with the invalid-status error. -/
theorem C2_witness :
    marquer_realisee
        [{ id := "c1", patient_num := "123456789012345", date_heure := 5,
           medecin := "Dr", motif := "checkup", diagnostic := none,
           prescriptions := [], statut := "annulée" }] "c1"
      = .error .invalidConsultationStatus :=
  (C2_markCompleted
      [{ id := "c1", patient_num := "123456789012345", date_heure := 5,
         medecin := "Dr", motif := "checkup", diagnostic := none,
         prescriptions := [], statut := "annulée" }] "c1").2.1
    { id := "c1", patient_num := "123456789012345", date_heure := 5,
      medecin := "Dr", motif := "checkup", diagnostic := none,
      prescriptions := [], statut := "annulée" }
    (by decide) (by decide)

/-- C3: `annuler_consultation` (cancel) fails with
`InvalidConsultationStatusError` when the current status is "réalisée"
(completed), leaving the store unchanged; on an already "annulée" (cancelled)
consultation it succeeds and the store is literally unchanged (idempotent
no-op); otherwise it sets the status to "annulée". -/
theorem C3_cancel (cs : List Consult) (cid : String) :
    (∀ c, find_by_id cs cid = some c → c.statut = "réalisée" →
        annuler_consultation cs cid = .error .invalidConsultationStatus)
    ∧ (∀ c, find_by_id cs cid = some c → c.statut = "annulée" →
        annuler_consultation cs cid = .ok cs)
    ∧ (∀ c, find_by_id cs cid = some c → c.statut ≠ "réalisée" →
        annuler_consultation cs cid
          = .ok (updateFirstById cs cid (fun x => { x with statut := "annulée" }))
        ∧ find_by_id
            (updateFirstById cs cid (fun x => { x with statut := "annulée" })) cid
            = some { c with statut := "annulée" }) := by
  refine ⟨fun c hc hst => ?_, fun c hc hst => ?_, fun c hc hst => ⟨?_, ?_⟩⟩
  · rw [annuler_consultation, hc]
    simp [hst]
  · have hne : c.statut ≠ "réalisée" := by rw [hst]; decide
    rw [annuler_consultation, hc]
    simp only [hne, if_neg, if_false]
    have hfix : ({ c with statut := "annulée" } : Consult) = c := by rw [← hst]
    rw [updateFirstById_eq_self cs cid _ c hc hfix]
  · rw [annuler_consultation, hc]
    simp [hst]
  · exact find_by_id_updateFirstById cs cid _ c hc rfl

/-- C3 witness: cancelling an already cancelled consultation succeeds and
returns the store unchanged. -/
theorem C3_witness :
    annuler_consultation
        [{ id := "c2", patient_num := "123456789012345", date_heure := 7,
           medecin := "Dr", motif := "suivi", diagnostic := none,
           prescriptions := [], statut := "annulée" }] "c2"
      = .ok
        [{ id := "c2", patient_num := "123456789012345", date_heure := 7,
           medecin := "Dr", motif := "suivi", diagnostic := none,
           prescriptions := [], statut := "annulée" }] :=
  (C3_cancel
      [{ id := "c2", patient_num := "123456789012345", date_heure := 7,
         medecin := "Dr", motif := "suivi", diagnostic := none,
         prescriptions := [], statut := "annulée" }] "c2").2.1
    { id := "c2", patient_num := "123456789012345", date_heure := 7,
      medecin := "Dr", motif := "suivi", diagnostic := none,
      prescriptions := [], statut := "annulée" }
    (by decide) (by decide)

/-- C8: `ajouter_diagnostic` (addDiagnosis) fails with
`ConsultationNotFoundError` when no consultation has the id; fails with
`InvalidConsultationStatusError` whenever the status differs from "réalisée"
(completed), leaving the diagnosis unchanged (the exception is raised before
any mutation); when the status is "réalisée" it succeeds and stores exactly
the given diagnosis text. -/
theorem C8_addDiagnosis (cs : List Consult) (cid text : String) :
    (find_by_id cs cid = none →
      ajouter_diagnostic cs cid text = .error .consultationNotFound)
    ∧ (∀ c, find_by_id cs cid = some c → c.statut ≠ "réalisée" →
        ajouter_diagnostic cs cid text = .error .invalidConsultationStatus)
    ∧ (∀ c, find_by_id cs cid = some c → c.statut = "réalisée" →
        ajouter_diagnostic cs cid text
          = .ok (updateFirstById cs cid (fun x => { x with diagnostic := some text }))
        ∧ find_by_id
            (updateFirstById cs cid (fun x => { x with diagnostic := some text })) cid
            = some { c with diagnostic := some text }) := by
  refine ⟨fun hnone => ?_, fun c hc hst => ?_, fun c hc hst => ⟨?_, ?_⟩⟩
  · rw [ajouter_diagnostic, hnone]
  · rw [ajouter_diagnostic, hc]
    simp [hst]
  · rw [ajouter_diagnostic, hc]
    simp [hst]
  · exact find_by_id_updateFirstById cs cid _ c hc rfl

/-- C8 witness: on a completed consultation the diagnosis "grippe" is stored
exactly. -/
theorem C8_witness :
    ajouter_diagnostic
        [{ id := "c3", patient_num := "123456789012345", date_heure := 3,
           medecin := "Dr", motif := "fievre", diagnostic := none,
           prescriptions := [], statut := "réalisée" }] "c3" "grippe"
      = .ok
        [{ id := "c3", patient_num := "123456789012345", date_heure := 3,
           medecin := "Dr", motif := "fievre", diagnostic := some "grippe",
           prescriptions := [], statut := "réalisée" }] :=
  ((C8_addDiagnosis
      [{ id := "c3", patient_num := "123456789012345", date_heure := 3,
         medecin := "Dr", motif := "fievre", diagnostic := none,
         prescriptions := [], statut := "réalisée" }] "c3" "grippe").2.2
    { id := "c3", patient_num := "123456789012345", date_heure := 3,
      medecin := "Dr", motif := "fievre", diagnostic := none,
      prescriptions := [], statut := "réalisée" }
    (by decide) (by decide)).1

/-- C9: `ajouter_prescription` (addPrescription) succeeds for any present
consultation id regardless of the status field (no status hypothesis
appears), appending the serialized record; the serialized record holds only
the class-name tag and the three shared attributes, and it does not depend on
the variant-specific attributes `frequence`, `laboratoire`, `zone`. -/
theorem C9_addPrescription (cs : List Consult) (cid : String) (presc : Prescription) :
    (∀ c, find_by_id cs cid = some c →
        ajouter_prescription cs cid presc
          = .ok (updateFirstById cs cid (fun x => { x with
              prescriptions := x.prescriptions ++ [serialize_prescription presc] }))
        ∧ find_by_id
            (updateFirstById cs cid (fun x => { x with
              prescriptions := x.prescriptions ++ [serialize_prescription presc] })) cid
            = some { c with
                prescriptions := c.prescriptions ++ [serialize_prescription presc] })
    ∧ serialize_prescription presc
        = { tag := presc.className, description := presc.description,
            posologie := presc.posologie, duree := presc.duree }
    ∧ (∀ m d fr fr₁ du, serialize_prescription (.medicamenteuse m d fr du)
        = serialize_prescription (.medicamenteuse m d fr₁ du))
    ∧ (∀ t lab lab₁, serialize_prescription (.examen t lab)
        = serialize_prescription (.examen t lab₁))
    ∧ (∀ n z z₁, serialize_prescription (.kinesitherapie n z)
        = serialize_prescription (.kinesitherapie n z₁)) := by
  refine ⟨fun c hc => ⟨?_, ?_⟩, rfl, fun m d fr fr₁ du => rfl,
    fun t lab lab₁ => rfl, fun n z z₁ => rfl⟩
  · rw [ajouter_prescription, hc]
  · exact find_by_id_updateFirstById cs cid _ c hc rfl

/-- C9 witness: a medicated prescription is appended (tag and shared fields
only) to a cancelled consultation — the status does not matter. -/
theorem C9_witness :
    ajouter_prescription
        [{ id := "c4", patient_num := "123456789012345", date_heure := 9,
           medecin := "Dr", motif := "suivi", diagnostic := none,
           prescriptions := [], statut := "annulée" }] "c4"
        (.medicamenteuse "paracetamol" "500mg" "3x/jour" "5 jours")
      = .ok
        [{ id := "c4", patient_num := "123456789012345", date_heure := 9,
           medecin := "Dr", motif := "suivi", diagnostic := none,
           prescriptions := [{ tag := "PrescriptionMedicamenteuse",
                               description := "paracetamol",
                               posologie := "500mg",
                               duree := "5 jours" }],
           statut := "annulée" }] :=
  ((C9_addPrescription
      [{ id := "c4", patient_num := "123456789012345", date_heure := 9,
         medecin := "Dr", motif := "suivi", diagnostic := none,
         prescriptions := [], statut := "annulée" }] "c4"
      (.medicamenteuse "paracetamol" "500mg" "3x/jour" "5 jours")).1
    { id := "c4", patient_num := "123456789012345", date_heure := 9,
      medecin := "Dr", motif := "suivi", diagnostic := none,
      prescriptions := [], statut := "annulée" }
    (by decide)).1

/-- C10: on a consultation whose status is already "réalisée" (completed),
`marquer_realisee` succeeds without error and returns the store literally
unchanged — the operation is idempotent on completed consultations, although
the documented state machine lists no completed-to-completed transition. -/
theorem C10_markCompleted_idempotent (cs : List Consult) (cid : String)
    (c : Consult) (hc : find_by_id cs cid = some c)
    (hst : c.statut = "réalisée") :
    marquer_realisee cs cid = .ok cs := by
  have hne : c.statut ≠ "annulée" := by rw [hst]; decide
  rw [marquer_realisee, hc]
  simp only [hne, if_neg, if_false]
  have hfix : ({ c with statut := "réalisée" } : Consult) = c := by rw [← hst]
  rw [updateFirstById_eq_self cs cid _ c hc hfix]

/-- C10 witness: markCompleted on a completed consultation is a successful
no-op. -/
theorem C10_witness :
    marquer_realisee
        [{ id := "c5", patient_num := "123456789012345", date_heure := 2,
           medecin := "Dr", motif := "bilan", diagnostic := some "ras",
           prescriptions := [], statut := "réalisée" }] "c5"
      = .ok
        [{ id := "c5", patient_num := "123456789012345", date_heure := 2,
           medecin := "Dr", motif := "bilan", diagnostic := some "ras",
           prescriptions := [], statut := "réalisée" }] :=
  C10_markCompleted_idempotent
    [{ id := "c5", patient_num := "123456789012345", date_heure := 2,
       medecin := "Dr", motif := "bilan", diagnostic := some "ras",
       prescriptions := [], statut := "réalisée" }] "c5"
    { id := "c5", patient_num := "123456789012345", date_heure := 2,
      medecin := "Dr", motif := "bilan", diagnostic := some "ras",
      prescriptions := [], statut := "réalisée" }
    (by decide) (by decide)

/-- The guard of `ajouter_patient`, `num.isdigit() and len(num) == 15`,
as a proposition. -/
theorem valid_secu_iff (s : String) :
    (pyIsDigitStr s && s.length == 15) = true ↔
      (s.length = 15 ∧ ∀ c ∈ s.data, pyIsDigit c) := by
  constructor
  · intro h
    rw [Bool.and_eq_true] at h
    obtain ⟨hd, hl⟩ := h
    rw [beq_iff_eq] at hl
    rw [pyIsDigitStr, Bool.and_eq_true] at hd
    exact ⟨hl, List.all_eq_true.1 hd.2⟩
  · rintro ⟨hl, hall⟩
    rw [Bool.and_eq_true, beq_iff_eq]
    refine ⟨?_, hl⟩
    rw [pyIsDigitStr, Bool.and_eq_true]
    refine ⟨?_, List.all_eq_true.2 hall⟩
    have hne : s.data ≠ [] := by
      intro hnil
      have h0 : s.length = 0 := by simp [String.length, hnil]
      omega
    simp [hne]

/-- C1 counterexample: the security number made of fifteen copies of the
ARABIC-INDIC DIGIT THREE (U+0663) contains no ASCII digit at all, yet
`ajouter_patient` accepts it, because CPython `str.isdigit()` is true on
non-ASCII Unicode digits.  So "fails unless the number is exactly 15 ASCII
digits" does not hold of the code. -/
theorem C1_counterexample :
    ajouter_patient []
        { numero_secu := "٣٣٣٣٣٣٣٣٣٣٣٣٣٣٣", nom := "Nom", prenom := "Prenom",
          date_naissance := "2000-01-01", adresse := "", telephone := "",
          consultations := [] }
      = .ok
        [("٣٣٣٣٣٣٣٣٣٣٣٣٣٣٣",
          { numero_secu := "٣٣٣٣٣٣٣٣٣٣٣٣٣٣٣", nom := "Nom", prenom := "Prenom",
            date_naissance := "2000-01-01", adresse := "", telephone := "",
            consultations := [] })]
    ∧ ¬ (∀ c ∈ "٣٣٣٣٣٣٣٣٣٣٣٣٣٣٣".data, ('0' ≤ c ∧ c ≤ '9')) := by
  constructor
  · rfl
  · decide

/-- C1 (amended): `ajouter_patient` succeeds, upserting the patient, exactly
when the security number has length 15 and every character is a digit in the
sense of Python `str.isdigit` (a strict superset of the ASCII digits);
otherwise it fails with `InvalidSecurityNumberError` and — the exception
being raised before any assignment — the store is unchanged.  In particular
every number of 15 ASCII digits is accepted, and every number of length ≠ 15
or containing a character that is not a digit at all is rejected. -/
theorem C1_add_validates_security_number (patients : PatientsMap)
    (patient : Patient) :
    ajouter_patient patients patient =
      if patient.numero_secu.length = 15
          ∧ ∀ c ∈ patient.numero_secu.data, pyIsDigit c
      then .ok (dictUpsert patients patient.numero_secu patient)
      else .error .invalidSecurityNumber := by
  by_cases h : patient.numero_secu.length = 15
      ∧ ∀ c ∈ patient.numero_secu.data, pyIsDigit c
  · rw [if_pos h, ajouter_patient, if_pos ((valid_secu_iff _).2 h)]
  · rw [if_neg h, ajouter_patient,
      if_neg (fun hb => h ((valid_secu_iff _).1 hb))]

/-- C4: adding a patient with a valid 15-digit security number and then
searching that number returns the very patient that was added (hence all of
its field values — security number, surname, given name, birth date, address,
phone — are identical). -/
theorem C4_add_then_find (patients : PatientsMap) (patient : Patient)
    (h15 : patient.numero_secu.length = 15)
    (hdig : ∀ c ∈ patient.numero_secu.data, pyIsDigit c) :
    ∃ patients₁,
      ajouter_patient patients patient = .ok patients₁
      ∧ rechercher_patient patients₁ patient.numero_secu = .ok patient := by
  refine ⟨dictUpsert patients patient.numero_secu patient, ?_, ?_⟩
  · rw [ajouter_patient, if_pos ((valid_secu_iff _).2 ⟨h15, hdig⟩)]
  · rw [rechercher_patient, dictGet_dictUpsert_self]

/-- C4 witness: add then find at the security number "123456789012345". -/
theorem C4_witness :
    ∃ patients₁,
      ajouter_patient []
          { numero_secu := "123456789012345", nom := "Martin",
            prenom := "Alice", date_naissance := "1990-05-01",
            adresse := "1 rue A", telephone := "0600000000",
            consultations := [] }
        = .ok patients₁
      ∧ rechercher_patient patients₁
          ({ numero_secu := "123456789012345", nom := "Martin",
             prenom := "Alice", date_naissance := "1990-05-01",
             adresse := "1 rue A", telephone := "0600000000",
             consultations := [] } : Patient).numero_secu
        = .ok
          { numero_secu := "123456789012345", nom := "Martin",
            prenom := "Alice", date_naissance := "1990-05-01",
            adresse := "1 rue A", telephone := "0600000000",
            consultations := [] } :=
  C4_add_then_find []
    { numero_secu := "123456789012345", nom := "Martin",
      prenom := "Alice", date_naissance := "1990-05-01",
      adresse := "1 rue A", telephone := "0600000000",
      consultations := [] }
    (by decide) (by decide)

/-- C5: scheduling against a security number absent from the patient store
fails with `PatientNotFoundError`; the exception propagates out of
`planifier_consultation` before the consultation dict is even built, so the
consultation collection is unchanged. -/
theorem C5_schedule_unknown_patient (st : ConsultationState)
    (cid patient_num : String) (date_heure : Nat) (medecin motif : String)
    (h : dictGet st.patients patient_num = none) :
    planifier_consultation st cid patient_num date_heure medecin motif
      = .error .patientNotFound := by
  rw [planifier_consultation, h]

/-- C5 witness: scheduling on an empty patient store fails. -/
theorem C5_witness :
    planifier_consultation { patients := [], consultations := [] }
        "c9" "999999999999999" 10 "Dr" "motif"
      = .error .patientNotFound :=
  C5_schedule_unknown_patient { patients := [], consultations := [] }
    "c9" "999999999999999" 10 "Dr" "motif" rfl

/-- C6: for an existing patient, `planifier_consultation` with a fresh id
(the `uuid4` draw, assumed distinct from every stored id) succeeds and
returns the created record: its id differs from every pre-existing
consultation id, its status is "planifiée" (scheduled), its diagnosis is
`none`, its prescription list is empty; the record is appended to the
in-memory consultation collection and to the patient back-reference list. -/
theorem C6_schedule_success (st : ConsultationState) (cid patient_num : String)
    (date_heure : Nat) (medecin motif : String) (patient : Patient)
    (hp : dictGet st.patients patient_num = some patient)
    (hfresh : ∀ c ∈ st.consultations, c.id ≠ cid) :
    planifier_consultation st cid patient_num date_heure medecin motif
      = .ok
        ({ patients := dictUpsert st.patients patient_num
             { patient with consultations := patient.consultations
                 ++ [nouvelle_consultation cid patient_num date_heure medecin motif] }
           consultations := st.consultations
             ++ [nouvelle_consultation cid patient_num date_heure medecin motif] },
         nouvelle_consultation cid patient_num date_heure medecin motif)
    ∧ (nouvelle_consultation cid patient_num date_heure medecin motif).id = cid
    ∧ (∀ c₀ ∈ st.consultations,
        c₀.id ≠ (nouvelle_consultation cid patient_num date_heure medecin motif).id)
    ∧ (nouvelle_consultation cid patient_num date_heure medecin motif).statut
        = "planifiée"
    ∧ (nouvelle_consultation cid patient_num date_heure medecin motif).diagnostic
        = none
    ∧ (nouvelle_consultation cid patient_num date_heure medecin motif).prescriptions
        = []
    ∧ dictGet
        (dictUpsert st.patients patient_num
          { patient with consultations := patient.consultations
              ++ [nouvelle_consultation cid patient_num date_heure medecin motif] })
        patient_num
      = some
        { patient with consultations := patient.consultations
            ++ [nouvelle_consultation cid patient_num date_heure medecin motif] } := by
  refine ⟨?_, rfl, hfresh, rfl, rfl, rfl, dictGet_dictUpsert_self _ _ _⟩
  rw [planifier_consultation, hp]

/-- C6 witness: scheduling for the stored patient "123456789012345" on an
empty consultation collection. -/
theorem C6_witness :
    planifier_consultation
        { patients := [("123456789012345",
            { numero_secu := "123456789012345", nom := "Martin",
              prenom := "Alice", date_naissance := "1990-05-01",
              adresse := "1 rue A", telephone := "0600000000",
              consultations := [] })],
          consultations := [] }
        "fresh-id" "123456789012345" 42 "Dr" "bilan"
      = .ok
        ({ patients := [("123456789012345",
             { numero_secu := "123456789012345", nom := "Martin",
               prenom := "Alice", date_naissance := "1990-05-01",
               adresse := "1 rue A", telephone := "0600000000",
               consultations := [nouvelle_consultation "fresh-id"
                 "123456789012345" 42 "Dr" "bilan"] })],
           consultations := [nouvelle_consultation "fresh-id"
             "123456789012345" 42 "Dr" "bilan"] },
         nouvelle_consultation "fresh-id" "123456789012345" 42 "Dr" "bilan") :=
  (C6_schedule_success
    { patients := [("123456789012345",
        { numero_secu := "123456789012345", nom := "Martin",
          prenom := "Alice", date_naissance := "1990-05-01",
          adresse := "1 rue A", telephone := "0600000000",
          consultations := [] })],
      consultations := [] }
    "fresh-id" "123456789012345" 42 "Dr" "bilan"
    { numero_secu := "123456789012345", nom := "Martin",
      prenom := "Alice", date_naissance := "1990-05-01",
      adresse := "1 rue A", telephone := "0600000000",
      consultations := [] }
    (by decide) (by decide)).1

/-- C7 counterexample: a stored consultation whose `statut` is the
unaccented string "planifiee" — not the scheduled literal "planifiée" that
`planifier_consultation` writes, i.e. a non-standard status value — is
nevertheless returned by `lister_consultations_a_venir`, because the filter
of the source accepts both spellings.  So "consultations with any other or
unrecognized status are excluded" does not hold of the code. -/
theorem C7_counterexample :
    lister_consultations_a_venir 0
        [{ id := "u1", patient_num := "123456789012345", date_heure := 5,
           medecin := "Dr", motif := "suivi", diagnostic := none,
           prescriptions := [], statut := "planifiee" }]
      = [{ id := "u1", patient_num := "123456789012345", date_heure := 5,
           medecin := "Dr", motif := "suivi", diagnostic := none,
           prescriptions := [], statut := "planifiee" }]
    ∧ ("planifiee" : String) ≠ "planifiée" := by
  constructor
  · rw [lister_consultations_a_venir]
    simp +decide
  · decide

/-- C7 (amended): `lister_consultations_a_venir` returns exactly those
consultations whose `statut` is "planifiée" or its unaccented variant
"planifiee" and whose date-time is ≥ now, sorted in ascending order of
date-time; consultations with any other status string (including "réalisée",
"annulée" and unrecognized values other than the unaccented spelling) are
excluded. -/
theorem C7_listUpcoming (now : Nat) (cs : List Consult) :
    List.Pairwise (fun a b => a.date_heure ≤ b.date_heure)
        (lister_consultations_a_venir now cs)
    ∧ List.Perm (lister_consultations_a_venir now cs)
        (cs.filter (fun c => (c.statut == "planifiée" || c.statut == "planifiee")
          && now ≤ c.date_heure))
    ∧ ∀ c, c ∈ lister_consultations_a_venir now cs ↔
        (c ∈ cs ∧ (c.statut = "planifiée" ∨ c.statut = "planifiee")
          ∧ now ≤ c.date_heure) := by
  have htrans : ∀ a b c : Consult, dateLe a b → dateLe b c → dateLe a c := by
    intro a b c hab hbc
    simp only [dateLe, decide_eq_true_eq] at hab hbc ⊢
    omega
  have htotal : ∀ a b : Consult, dateLe a b || dateLe b a := by
    intro a b
    simp only [dateLe, Bool.or_eq_true, decide_eq_true_eq]
    omega
  refine ⟨?_, ?_, ?_⟩
  · have h := List.sorted_mergeSort htrans htotal
      (cs.filter (fun c => (c.statut == "planifiée" || c.statut == "planifiee")
        && now ≤ c.date_heure))
    rw [lister_consultations_a_venir]
    exact h.imp (by intro a b hab; simpa [dateLe] using hab)
  · exact List.mergeSort_perm _ _
  · intro c
    rw [lister_consultations_a_venir, List.mem_mergeSort, List.mem_filter]
    simp [Bool.and_eq_true, Bool.or_eq_true]
